import Mathlib

/-!
Verification of the bourseradar screening pipeline.

The embedding below follows `src/screener.py`; `src/global_buffett_screener.py`
is the same pipeline with one extra entry in its excluded-sector list
(`Telecommunication Services`) and a slightly shorter manual ticker list, and
none of the properties verified here depend on those two differences.

Modelling conventions:
* Python floats are modelled as exact rationals (ℚ).
* A loosely-typed provider record (`stock.info`) is a list of string-keyed
  entries holding `PyVal` values; `dict.get` is first-match lookup.
* Remote fetches that can raise (`stock.info`, `stock.fast_info.last_price`)
  are modelled as `Except Unit _`; a pandas lookup such as
  `stock.financials.loc['Net Income'].iloc[0]`, which raises exactly when the
  line item is missing, is an `Option ℚ` field of `Stock`.
* Python `round(x, 2)` (round-half-to-even at two decimals) is `round2`.
* `float(s)` on strings is modelled by a parser for plain signed decimal
  numerals, the shape of data the provider actually serves.
-/

/-- A loosely-typed Python value as stored in a provider record:
`None`, a number, a string, or some other object on which `float` raises. -/
inductive PyVal where
  | pynone : PyVal
  | num (q : ℚ) : PyVal
  | str (s : String) : PyVal
  | obj : PyVal
deriving DecidableEq, Repr

/-- Digits-only parser: `some n` when the character list is a non-empty run of
decimal digits. -/
def parseDigits (cs : List Char) : Option ℕ :=
  if cs.isEmpty then none
  else cs.foldlM (fun acc c => if c.isDigit then some (acc * 10 + (c.toNat - 48)) else none) 0

/-- Model of the host `float()` string parser, restricted to plain signed
decimal numerals (an optional sign, digits, an optional point and fraction). -/
def parseFloat (s : String) : Option ℚ :=
  let cs := s.toList
  let signed : ℚ × List Char :=
    match cs with
    | '-' :: rest => (-1, rest)
    | '+' :: rest => (1, rest)
    | _ => (1, cs)
  let sign := signed.1
  let body := signed.2
  let intPart := body.takeWhile (fun c => c ≠ '.')
  let rest := body.dropWhile (fun c => c ≠ '.')
  match rest with
  | [] => (parseDigits intPart).map (fun n => sign * n)
  | _ :: frac =>
    if frac.contains '.' then none
    else if intPart.isEmpty then
      (parseDigits frac).map (fun n => sign * n / 10 ^ frac.length)
    else if frac.isEmpty then
      (parseDigits intPart).map (fun n => sign * n)
    else
      match parseDigits intPart, parseDigits frac with
      | some a, some b => some (sign * ((a : ℚ) + (b : ℚ) / 10 ^ frac.length))
      | _, _ => none

/-- `float(v)` on a Python value: `some q` when the conversion succeeds,
`none` when it raises `ValueError` or `TypeError` (or when `v` is `None`,
which `get_safe_float` rejects before calling `float`). -/
def pyFloat (v : PyVal) : Option ℚ :=
  match v with
  | .pynone => none
  | .num q => some q
  | .str s => parseFloat s
  | .obj => none

/-- A string-keyed record with heterogeneous values (a Python dict as seen
through `.get`). -/
structure PyDict where
  entries : List (String × PyVal)
deriving DecidableEq, Repr

/-- `d.get k`: the first value stored under key `k`, if any. -/
def PyDict.get (d : PyDict) (k : String) : Option PyVal :=
  (d.entries.find? (fun e => e.1 = k)).map (fun e => e.2)

/-- `info.get(key)` followed by `float`: the rational the record yields for
`key`, when the key is present and its value converts. -/
def lookupFloat (info : PyDict) (key : String) : Option ℚ :=
  (info.get key).bind pyFloat

/-- `get_safe_float` (src/screener.py:24): reads `key` from `info` and returns
`float` of the value, or `reject_value` when the key is absent, the value is
`None`, or `float` raises. Total by construction: no exception escapes. -/
def get_safe_float (info : PyDict) (key : String) (reject_value : ℚ) : ℚ :=
  match lookupFloat info key with
  | some q => q
  | none => reject_value

/-- The per-security data a run can observe, flattening the yfinance object:
fallible fetches as `Except Unit`, fallible pandas line-item lookups as
`Option`. -/
structure Stock where
  /-- `stock.info`: the summary record; the fetch itself may raise. -/
  info : Except Unit PyDict
  /-- `stock.fast_info.last_price`; the fetch may raise. -/
  fastPrice : Except Unit ℚ
  /-- `stock.financials.loc['Net Income'].iloc[0]`. -/
  netIncome : Option ℚ
  /-- `stock.financials.loc['Gross Profit'].iloc[0]`. -/
  grossProfit : Option ℚ
  /-- `stock.financials.loc['Total Revenue'].iloc[0]`. -/
  totalRevenue : Option ℚ
  /-- `stock.balance_sheet.loc['Total Debt'].iloc[0]`. -/
  bsTotalDebt : Option ℚ
  /-- `stock.balance_sheet.loc['Total Stockholder Equity'].iloc[0]`. -/
  bsTotalEquity : Option ℚ
deriving Repr

/-- `calculate_roe` (src/screener.py:32): net income over total equity when
both line items resolve and equity is positive; `-1.0` on any failure. -/
def calculate_roe (stock : Stock) : ℚ :=
  match stock.netIncome, stock.bsTotalEquity with
  | some net_income, some total_equity =>
    if total_equity > 0 then net_income / total_equity else -1
  | _, _ => -1

/-- `calculate_gpm` (src/screener.py:43): gross profit over total revenue when
both line items resolve and revenue is positive; `-1.0` on any failure. -/
def calculate_gpm (stock : Stock) : ℚ :=
  match stock.grossProfit, stock.totalRevenue with
  | some gross_profit, some total_revenue =>
    if total_revenue > 0 then gross_profit / total_revenue else -1
  | _, _ => -1

/-- `calculate_de_ratio` (src/screener.py:54): balance-sheet total debt over
total equity when both line items resolve (sentinel `9999.0` when equity is
not positive); when either line item is missing, falls back to the summary
record through `get_safe_float`. The fallback itself reads `stock.info`
outside any handler, so a failing summary fetch propagates (`Except.error`). -/
def calculate_de_ratio (stock : Stock) : Except Unit ℚ :=
  match stock.bsTotalDebt, stock.bsTotalEquity with
  | some total_debt, some total_equity =>
    .ok (if total_equity > 0 then total_debt / total_equity else 9999)
  | _, _ =>
    match stock.info with
    | .error e => .error e
    | .ok info =>
      let total_debt := get_safe_float info "totalDebt" 0
      let total_equity := get_safe_float info "totalStockholderEquity" (-1)
      .ok (if total_equity > 0 then total_debt / total_equity else 9999)

/-- `EXCLUDED_SECTORS` (src/screener.py:11). -/
def EXCLUDED_SECTORS : List String :=
  ["Technology", "Biotechnology", "Basic Materials", "Energy",
   "Oil & Gas", "Mining", "Semiconductors", "Aerospace & Defense",
   "Capital Goods", "Industrials", "Real Estate"]

/-- `EXEMPTED_DEBT_SECTORS` (src/screener.py:19). -/
def EXEMPTED_DEBT_SECTORS : List String :=
  ["Financial Services", "Utilities"]

/-- Python `v in sectors` for a heterogeneous value against a list of strings:
true exactly when `v` is one of the strings. -/
def inSectors (v : PyVal) (sectors : List String) : Bool :=
  match v with
  | .str s => sectors.contains s
  | _ => false

/-- `info.get('sector', 'N/A')`: the stored value (whatever its type), or the
string `N/A` when the key is absent. -/
def sectorVal (info : PyDict) : PyVal :=
  (info.get "sector").getD (.str "N/A")

/-- Filter F1, `is_pe_ok` (src/screener.py:136): `0.0 < pe < 15.0`, strict on
both sides. -/
def is_pe_ok (pe_val : ℚ) : Bool :=
  decide (0 < pe_val) && decide (pe_val < 15)

/-- Filter F2, `is_roe_ok` (src/screener.py:137): `roe > 0.15`, strict. -/
def is_roe_ok (roe_val : ℚ) : Bool :=
  decide (roe_val > 15 / 100)

/-- Filter F3, `is_gpm_ok` (src/screener.py:138): `gpm > 0.20`, strict. -/
def is_gpm_ok (gpm_val : ℚ) : Bool :=
  decide (gpm_val > 20 / 100)

/-- Filter F4, `is_de_ok` (src/screener.py:141): `de < 1.0`, or the sector is
debt-exempted. -/
def is_de_ok (de_val : ℚ) (sector : PyVal) : Bool :=
  decide (de_val < 1) || inSectors sector EXEMPTED_DEBT_SECTORS

/-- Round-half-to-even to an integer, the rounding Python `round` uses. -/
def roundHalfEven (q : ℚ) : ℤ :=
  let f := ⌊q⌋
  if q - f < 1 / 2 then f
  else if 1 / 2 < q - f then f + 1
  else if f % 2 = 0 then f else f + 1

/-- Python `round(x, 2)` on the exact rational model. -/
def round2 (q : ℚ) : ℚ :=
  (roundHalfEven (q * 100) : ℚ) / 100

/-- Python `str(v)`, used when a sector value is interpolated into the
exemption tag; only the string case is reachable under the exemption guard. -/
def pyStrOf (v : PyVal) : String :=
  match v with
  | .pynone => "None"
  | .num q => toString q
  | .str s => s
  | .obj => "<object>"

/-- The plain pass tag. -/
def goldTag : String := "Valeur d'Or"

/-- The annotated tag `f"Valeur d'Or (Dette adaptée : {sector})"`. -/
def exemptTag (sector : PyVal) : String :=
  "Valeur d'Or (Dette adaptée : " ++ pyStrOf sector ++ ")"

/-- The Match Record built at src/screener.py:152: one security that passed
all four filters, with rounded ratios and a classification tag. -/
structure MatchRecord where
  symbol : String
  name : PyVal
  sector : PyVal
  pe : ℚ
  roe : ℚ
  gpm : ℚ
  de_ratio : ℚ
  price : ℚ
  currency : PyVal
  tag : String
deriving DecidableEq, Repr

/-- `process_ticker` (src/screener.py:115): the Security Evaluator. Fetches
the summary record and fast price, short-circuits on an excluded sector,
computes the four metrics, and returns a Match Record exactly when all four
filters pass; every fault on the way is caught and becomes `none`. -/
def process_ticker (ticker : String) (stock : Stock) : Option MatchRecord :=
  match stock.info with
  | .error _ => none
  | .ok info =>
    match stock.fastPrice with
    | .error _ => none
    | .ok price =>
      let sector := sectorVal info
      if inSectors sector EXCLUDED_SECTORS then none
      else
        let pe_val := get_safe_float info "trailingPE" 9999
        let roe_val := calculate_roe stock
        let gpm_val := calculate_gpm stock
        match calculate_de_ratio stock with
        | .error _ => none
        | .ok de_val =>
          if is_pe_ok pe_val && is_roe_ok roe_val && is_gpm_ok gpm_val &&
              is_de_ok de_val sector then
            some
              { symbol := ticker
                name := (info.get "longName").getD (.str ticker)
                sector := sector
                pe := round2 pe_val
                roe := round2 (roe_val * 100)
                gpm := round2 (gpm_val * 100)
                de_ratio := round2 de_val
                price := round2 price
                currency := (info.get "currency").getD (.str "USD")
                tag := if inSectors sector EXEMPTED_DEBT_SECTORS then exemptTag sector
                       else goldTag }
          else none

/-- The final report (src/screener.py:187): timestamp, match count, and the
ordered match list. -/
structure ScanReport where
  last_updated : String
  count : ℕ
  data : List MatchRecord
deriving Repr

/-- The comparison `run_global_analysis` sorts by: ascending `pe`. -/
def peLe (a b : MatchRecord) : Bool :=
  decide (a.pe ≤ b.pe)

/-- The collect-and-report tail of `run_global_analysis` (src/screener.py:182):
given the per-ticker results in dispatch order and the formatted timestamp,
discard the `None` entries, stable-sort the survivors ascending by `pe`, and
wrap them with the count. -/
def run_global_analysis (results : List (Option MatchRecord)) (now : String) : ScanReport :=
  let undervalued_stocks := results.filterMap id
  let sorted := undervalued_stocks.mergeSort peLe
  { last_updated := now, count := sorted.length, data := sorted }

/-- `get_tickers_from_wiki` (src/screener.py:75): given the scraped symbol
column (`none` when any step of the scrape fails) and an exchange suffix,
normalize each symbol (`.` becomes `-`, then the suffix); a failed scrape
contributes the empty list. -/
def get_tickers_from_wiki (col : Option (List String)) (suffix : String) : List String :=
  match col with
  | none => []
  | some ts => ts.map (fun t => t.replace "." "-" ++ suffix)

/-- The static manual ticker list (src/screener.py:101). -/
def manual_tickers : List String :=
  ["7203.T", "6758.T", "9984.T", "6861.T", "8306.T", "9432.T", "7974.T",
   "NESN.SW", "NOVN.SW", "ROG.SW", "UBSG.SW", "ZURN.SW",
   "RY.TO", "TD.TO", "ENB.TO", "SHOP.TO",
   "BHP.AX", "CBA.AX", "CSL.AX", "WBC.AX",
   "0700.HK", "9988.HK", "1299.HK"]

/-- The raw concatenation `all_tickers` builds up in `get_all_global_tickers`
(src/screener.py:87), with each wiki fetch abstracted by its scraped column. -/
def all_tickers_raw (sp500 nasdaq cac40 dax ftse : Option (List String)) : List String :=
  get_tickers_from_wiki sp500 "" ++ get_tickers_from_wiki nasdaq "" ++
  get_tickers_from_wiki cac40 ".PA" ++ get_tickers_from_wiki dax ".DE" ++
  get_tickers_from_wiki ftse ".L" ++ manual_tickers

/-- `get_all_global_tickers` (src/screener.py:85):
`list(set(filter(None, all_tickers)))` — drop falsy (empty) tokens, then take
set semantics, modelled as `dedup` of the filtered list. -/
def get_all_global_tickers (sp500 nasdaq cac40 dax ftse : Option (List String)) : List String :=
  ((all_tickers_raw sp500 nasdaq cac40 dax ftse).filter (fun t => t ≠ "")).dedup

/-! ## Helper lemmas shared by several claims -/

/-- All-paths lemma: when every way the four-filter conjunction can be
evaluated comes out false, the evaluator returns `none`. -/
theorem process_ticker_none_of_pred_false (ticker : String) (stock : Stock) (info : PyDict)
    (hinfo : stock.info = .ok info)
    (h : ∀ de_val : ℚ, calculate_de_ratio stock = .ok de_val →
      (is_pe_ok (get_safe_float info "trailingPE" 9999) &&
        is_roe_ok (calculate_roe stock) && is_gpm_ok (calculate_gpm stock) &&
        is_de_ok de_val (sectorVal info)) = false) :
    process_ticker ticker stock = none := by
  unfold process_ticker
  rw [hinfo]
  cases hfp : stock.fastPrice with
  | error e => rfl
  | ok price =>
    by_cases hex : inSectors (sectorVal info) EXCLUDED_SECTORS = true
    · simp [hex]
    · cases hde : calculate_de_ratio stock with
      | error e => simp [hex, hde]
      | ok de_val => simp [hex, hde, h de_val hde]

/-- On the happy fetch path the evaluator returns a record exactly when the
four-filter conjunction holds. -/
theorem process_ticker_isSome_eq (ticker : String) (stock : Stock) (info : PyDict)
    (price : ℚ) (de_val : ℚ)
    (hinfo : stock.info = .ok info) (hfp : stock.fastPrice = .ok price)
    (hex : inSectors (sectorVal info) EXCLUDED_SECTORS = false)
    (hde : calculate_de_ratio stock = .ok de_val) :
    (process_ticker ticker stock).isSome =
      (is_pe_ok (get_safe_float info "trailingPE" 9999) &&
        is_roe_ok (calculate_roe stock) && is_gpm_ok (calculate_gpm stock) &&
        is_de_ok de_val (sectorVal info)) := by
  unfold process_ticker
  rw [hinfo, hfp]
  cases hpe : is_pe_ok (get_safe_float info "trailingPE" 9999) <;>
  cases hroe : is_roe_ok (calculate_roe stock) <;>
  cases hgpm : is_gpm_ok (calculate_gpm stock) <;>
  cases hdeok : is_de_ok de_val (sectorVal info) <;>
  simp [hex, hde, hpe, hroe, hgpm, hdeok]

/-- The record the evaluator builds when all four filters pass. -/
theorem process_ticker_eq_some (ticker : String) (stock : Stock) (info : PyDict)
    (price : ℚ) (de_val : ℚ)
    (hinfo : stock.info = .ok info) (hfp : stock.fastPrice = .ok price)
    (hex : inSectors (sectorVal info) EXCLUDED_SECTORS = false)
    (hde : calculate_de_ratio stock = .ok de_val)
    (hpred : (is_pe_ok (get_safe_float info "trailingPE" 9999) &&
        is_roe_ok (calculate_roe stock) && is_gpm_ok (calculate_gpm stock) &&
        is_de_ok de_val (sectorVal info)) = true) :
    process_ticker ticker stock = some
      { symbol := ticker
        name := (info.get "longName").getD (.str ticker)
        sector := sectorVal info
        pe := round2 (get_safe_float info "trailingPE" 9999)
        roe := round2 (calculate_roe stock * 100)
        gpm := round2 (calculate_gpm stock * 100)
        de_ratio := round2 de_val
        price := round2 price
        currency := (info.get "currency").getD (.str "USD")
        tag := if inSectors (sectorVal info) EXEMPTED_DEBT_SECTORS then
            exemptTag (sectorVal info) else goldTag } := by
  unfold process_ticker
  rw [hinfo, hfp]
  simp [hex, hde, hpred]

/-- Detailed path of the debt-to-equity calculator: both balance-sheet line
items resolve. -/
theorem calculate_de_ratio_detailed (stock : Stock) (td te : ℚ)
    (h1 : stock.bsTotalDebt = some td) (h2 : stock.bsTotalEquity = some te) :
    calculate_de_ratio stock = .ok (if te > 0 then td / te else 9999) := by
  unfold calculate_de_ratio
  rw [h1, h2]

/-- Fallback path of the debt-to-equity calculator: a balance-sheet line item
is missing and the summary record is readable. -/
theorem calculate_de_ratio_fallback (stock : Stock) (info : PyDict)
    (hmiss : stock.bsTotalDebt = none ∨ stock.bsTotalEquity = none)
    (hinfo : stock.info = .ok info) :
    calculate_de_ratio stock = .ok
      (if get_safe_float info "totalStockholderEquity" (-1) > 0 then
        get_safe_float info "totalDebt" 0 / get_safe_float info "totalStockholderEquity" (-1)
      else 9999) := by
  unfold calculate_de_ratio
  rcases hmiss with h | h <;>
    rcases h1 : stock.bsTotalDebt with _ | td <;>
    rcases h2 : stock.bsTotalEquity with _ | te <;>
    simp_all [hinfo]

/-- Fallback path with an unreadable summary record: the error propagates. -/
theorem calculate_de_ratio_fallback_error (stock : Stock) (e : Unit)
    (hmiss : stock.bsTotalDebt = none ∨ stock.bsTotalEquity = none)
    (hinfo : stock.info = .error e) :
    calculate_de_ratio stock = .error e := by
  unfold calculate_de_ratio
  rcases hmiss with h | h <;>
    rcases h1 : stock.bsTotalDebt with _ | td <;>
    rcases h2 : stock.bsTotalEquity with _ | te <;>
    simp_all [hinfo]

/-! ## C6: the Safe Numeric Extractor -/

/-- Claim C6: for every record, key and caller-supplied reject value, when the
key is absent or the stored value cannot be interpreted as a real number,
`get_safe_float` returns exactly the reject value; when the value does
convert, it returns the converted number. The function is total by
construction, so no exception can escape for any input value. -/
theorem get_safe_float_total :
    (∀ (info : PyDict) (key : String) (reject_value : ℚ),
      lookupFloat info key = none → get_safe_float info key reject_value = reject_value)
    ∧ (∀ (info : PyDict) (key : String) (reject_value : ℚ),
      info.get key = none → get_safe_float info key reject_value = reject_value)
    ∧ (∀ (info : PyDict) (key : String) (reject_value : ℚ) (v : PyVal),
      info.get key = some v → pyFloat v = none →
      get_safe_float info key reject_value = reject_value)
    ∧ (∀ (info : PyDict) (key : String) (reject_value q : ℚ),
      lookupFloat info key = some q → get_safe_float info key reject_value = q) := by
  refine ⟨?_, ?_, ?_, ?_⟩
  · intro info key r h
    unfold get_safe_float
    rw [h]
  · intro info key r h
    unfold get_safe_float lookupFloat
    rw [h]
    rfl
  · intro info key r v h1 h2
    unfold get_safe_float lookupFloat
    rw [h1]
    simp [h2]
  · intro info key r q h
    unfold get_safe_float
    rw [h]

/-- Witness for C6: a record whose requested key is absent, one whose value is
a non-numeric string, one holding `None`, and one holding a number. -/
theorem get_safe_float_total_witness :
    get_safe_float ⟨[("roe", .num 3)]⟩ "trailingPE" 42 = 42 ∧
    get_safe_float ⟨[("trailingPE", .str "not a number")]⟩ "trailingPE" 42 = 42 ∧
    get_safe_float ⟨[("trailingPE", .pynone)]⟩ "trailingPE" 42 = 42 ∧
    get_safe_float ⟨[("trailingPE", .num 7)]⟩ "trailingPE" 42 = 7 := by
  refine ⟨get_safe_float_total.2.1 _ _ _ (by decide),
    get_safe_float_total.2.2.1 _ _ _ (.str "not a number") (by decide) (by decide),
    get_safe_float_total.2.2.1 _ _ _ .pynone (by decide) (by decide),
    get_safe_float_total.2.2.2 _ _ _ _ (by decide)⟩

/-! ## C5: failure sentinels on non-positive denominators -/

/-- Claim C5: with a non-positive total equity (resp. total revenue), the
three ratio calculators return their sentinels (`-1.0`, `-1.0`, `9999.0`),
and every division any of them performs has a strictly positive
denominator. -/
theorem ratio_sentinel_nonpositive_equity :
    (∀ (stock : Stock) (ni te : ℚ), stock.netIncome = some ni →
      stock.bsTotalEquity = some te → te ≤ 0 → calculate_roe stock = -1)
    ∧ (∀ (stock : Stock) (gp tr : ℚ), stock.grossProfit = some gp →
      stock.totalRevenue = some tr → tr ≤ 0 → calculate_gpm stock = -1)
    ∧ (∀ (stock : Stock) (td te : ℚ), stock.bsTotalDebt = some td →
      stock.bsTotalEquity = some te → te ≤ 0 → calculate_de_ratio stock = .ok 9999)
    ∧ (∀ (stock : Stock) (info : PyDict), stock.info = .ok info →
      (stock.bsTotalDebt = none ∨ stock.bsTotalEquity = none) →
      get_safe_float info "totalStockholderEquity" (-1) ≤ 0 →
      calculate_de_ratio stock = .ok 9999)
    ∧ (∀ stock : Stock, calculate_roe stock = -1 ∨
      ∃ ni te : ℚ, stock.netIncome = some ni ∧ stock.bsTotalEquity = some te ∧
        0 < te ∧ calculate_roe stock = ni / te)
    ∧ (∀ stock : Stock, calculate_gpm stock = -1 ∨
      ∃ gp tr : ℚ, stock.grossProfit = some gp ∧ stock.totalRevenue = some tr ∧
        0 < tr ∧ calculate_gpm stock = gp / tr)
    ∧ (∀ (stock : Stock) (q : ℚ), calculate_de_ratio stock = .ok q →
      q = 9999 ∨ ∃ td te : ℚ, 0 < te ∧ q = td / te ∧
        ((stock.bsTotalDebt = some td ∧ stock.bsTotalEquity = some te) ∨
          ∃ info : PyDict, stock.info = .ok info ∧
            td = get_safe_float info "totalDebt" 0 ∧
            te = get_safe_float info "totalStockholderEquity" (-1))) := by
  refine ⟨?_, ?_, ?_, ?_, ?_, ?_, ?_⟩
  · intro stock ni te h1 h2 h3
    simp [calculate_roe, h1, h2, not_lt.mpr h3]
  · intro stock gp tr h1 h2 h3
    simp [calculate_gpm, h1, h2, not_lt.mpr h3]
  · intro stock td te h1 h2 h3
    rw [calculate_de_ratio_detailed stock td te h1 h2, if_neg (not_lt.mpr h3)]
  · intro stock info hinfo hmiss hle
    rw [calculate_de_ratio_fallback stock info hmiss hinfo, if_neg (not_lt.mpr hle)]
  · intro stock
    rcases h1 : stock.netIncome with _ | ni
    · exact Or.inl (by simp [calculate_roe, h1])
    rcases h2 : stock.bsTotalEquity with _ | te
    · exact Or.inl (by simp [calculate_roe, h1, h2])
    by_cases hte : te > 0
    · exact Or.inr ⟨ni, te, rfl, rfl, hte, by simp [calculate_roe, h1, h2, hte]⟩
    · exact Or.inl (by simp [calculate_roe, h1, h2, hte])
  · intro stock
    rcases h1 : stock.grossProfit with _ | gp
    · exact Or.inl (by simp [calculate_gpm, h1])
    rcases h2 : stock.totalRevenue with _ | tr
    · exact Or.inl (by simp [calculate_gpm, h1, h2])
    by_cases htr : tr > 0
    · exact Or.inr ⟨gp, tr, rfl, rfl, htr, by simp [calculate_gpm, h1, h2, htr]⟩
    · exact Or.inl (by simp [calculate_gpm, h1, h2, htr])
  · intro stock q hq
    by_cases hmiss : stock.bsTotalDebt = none ∨ stock.bsTotalEquity = none
    · rcases h3 : stock.info with e | info
      · rw [calculate_de_ratio_fallback_error stock e hmiss h3] at hq
        exact absurd hq (by simp)
      · rw [calculate_de_ratio_fallback stock info hmiss h3] at hq
        have hval := Except.ok.inj hq
        by_cases hte : get_safe_float info "totalStockholderEquity" (-1) > 0
        · rw [if_pos hte] at hval
          exact Or.inr ⟨_, _, hte, hval.symm, Or.inr ⟨info, rfl, rfl, rfl⟩⟩
        · rw [if_neg hte] at hval
          exact Or.inl hval.symm
    · push_neg at hmiss
      rcases hd : stock.bsTotalDebt with _ | td
      · exact absurd hd hmiss.1
      rcases he : stock.bsTotalEquity with _ | te
      · exact absurd he hmiss.2
      rw [calculate_de_ratio_detailed stock td te hd he] at hq
      have hval := Except.ok.inj hq
      by_cases hte : te > 0
      · rw [if_pos hte] at hval
        exact Or.inr ⟨td, te, hte, hval.symm, Or.inl ⟨rfl, rfl⟩⟩
      · rw [if_neg hte] at hval
        exact Or.inl hval.symm

/-- Witness for C5: sentinel outcomes on concrete stocks with zero or negative
equity on every path, and a positive-denominator division on a healthy one. -/
theorem ratio_sentinel_nonpositive_equity_witness :
    calculate_roe ⟨.error (), .error (), some 8, none, none, none, some 0⟩ = -1 ∧
    calculate_gpm ⟨.error (), .error (), none, some 8, some (-3), none, none⟩ = -1 ∧
    calculate_de_ratio ⟨.error (), .error (), none, none, none, some 5, some (-2)⟩ = .ok 9999 ∧
    calculate_de_ratio ⟨.ok ⟨[("totalStockholderEquity", .num (-4))]⟩, .error (),
      none, none, none, none, some 3⟩ = .ok 9999 := by
  refine ⟨ratio_sentinel_nonpositive_equity.1 _ 8 0 rfl rfl (by norm_num),
    ratio_sentinel_nonpositive_equity.2.1 _ 8 (-3) rfl rfl (by norm_num),
    ratio_sentinel_nonpositive_equity.2.2.1 _ 5 (-2) rfl rfl (by norm_num),
    ratio_sentinel_nonpositive_equity.2.2.2.1 _ _ rfl (Or.inl rfl) (by norm_num [get_safe_float, lookupFloat, PyDict.get, pyFloat, List.find?])⟩

/-! ## C1: strict boundaries of the four filters -/

/-- Claim C1: each of the four numeric filters is strict on both relevant
sides: a P/E of exactly 15.0 or exactly 0.0, an ROE of exactly 0.15, a gross
margin of exactly 0.20, or a D/E of exactly 1.0 outside the exempted sectors
fails its filter and the evaluator yields no match record, while values
strictly inside the bounds satisfy their predicate. -/
theorem strict_boundary_filters :
    (∀ (ticker : String) (stock : Stock) (info : PyDict), stock.info = .ok info →
      get_safe_float info "trailingPE" 9999 = 15 → process_ticker ticker stock = none)
    ∧ (∀ (ticker : String) (stock : Stock) (info : PyDict), stock.info = .ok info →
      get_safe_float info "trailingPE" 9999 = 0 → process_ticker ticker stock = none)
    ∧ (∀ (ticker : String) (stock : Stock), calculate_roe stock = 15 / 100 →
      process_ticker ticker stock = none)
    ∧ (∀ (ticker : String) (stock : Stock), calculate_gpm stock = 20 / 100 →
      process_ticker ticker stock = none)
    ∧ (∀ (ticker : String) (stock : Stock) (info : PyDict), stock.info = .ok info →
      calculate_de_ratio stock = .ok 1 →
      inSectors (sectorVal info) EXEMPTED_DEBT_SECTORS = false →
      process_ticker ticker stock = none)
    ∧ (∀ pe_val : ℚ, 0 < pe_val → pe_val < 15 → is_pe_ok pe_val = true)
    ∧ (∀ roe_val : ℚ, 15 / 100 < roe_val → is_roe_ok roe_val = true)
    ∧ (∀ gpm_val : ℚ, 20 / 100 < gpm_val → is_gpm_ok gpm_val = true)
    ∧ (∀ (de_val : ℚ) (sector : PyVal), de_val < 1 → is_de_ok de_val sector = true)
    ∧ is_pe_ok 15 = false ∧ is_pe_ok 0 = false ∧ is_roe_ok (15 / 100) = false
    ∧ is_gpm_ok (20 / 100) = false
    ∧ (∀ sector : PyVal, inSectors sector EXEMPTED_DEBT_SECTORS = false →
      is_de_ok 1 sector = false) := by
  have hpe15 : is_pe_ok 15 = false := by
    rw [is_pe_ok]
    simp only [decide_eq_false_iff_not, Bool.and_eq_false_iff, decide_eq_true_eq]
    norm_num
  have hpe0 : is_pe_ok 0 = false := by
    rw [is_pe_ok]
    simp only [decide_eq_false_iff_not, Bool.and_eq_false_iff, decide_eq_true_eq]
    norm_num
  have hroe : is_roe_ok (15 / 100) = false := by
    rw [is_roe_ok]
    simp only [decide_eq_false_iff_not]
    norm_num
  have hgpm : is_gpm_ok (20 / 100) = false := by
    rw [is_gpm_ok]
    simp only [decide_eq_false_iff_not]
    norm_num
  refine ⟨?_, ?_, ?_, ?_, ?_, ?_, ?_, ?_, ?_, hpe15, hpe0, hroe, hgpm, ?_⟩
  · intro ticker stock info hinfo hpe
    exact process_ticker_none_of_pred_false ticker stock info hinfo
      (fun de_val _ => by rw [hpe]; simp [hpe15])
  · intro ticker stock info hinfo hpe
    exact process_ticker_none_of_pred_false ticker stock info hinfo
      (fun de_val _ => by rw [hpe]; simp [hpe0])
  · intro ticker stock hroe_eq
    rcases hi : stock.info with e | info
    · unfold process_ticker
      rw [hi]
    · exact process_ticker_none_of_pred_false ticker stock info hi
        (fun de_val _ => by rw [hroe_eq]; simp [hroe])
  · intro ticker stock hgpm_eq
    rcases hi : stock.info with e | info
    · unfold process_ticker
      rw [hi]
    · exact process_ticker_none_of_pred_false ticker stock info hi
        (fun de_val _ => by rw [hgpm_eq]; simp [hgpm])
  · intro ticker stock info hinfo hde hexmp
    refine process_ticker_none_of_pred_false ticker stock info hinfo (fun de_val hde2 => ?_)
    have h1 : de_val = 1 := by
      rw [hde] at hde2
      exact (Except.ok.inj hde2).symm
    have hdeok : is_de_ok de_val (sectorVal info) = false := by
      rw [h1, is_de_ok, hexmp]
      simp only [Bool.or_false, decide_eq_false_iff_not]
      norm_num
    simp [hdeok]
  · intro pe_val h1 h2
    rw [is_pe_ok]
    simp [h1, h2]
  · intro roe_val h
    rw [is_roe_ok]
    simp [h]
  · intro gpm_val h
    rw [is_gpm_ok]
    simp [h]
  · intro de_val sector h
    rw [is_de_ok]
    simp [h]
  · intro sector h
    rw [is_de_ok, h]
    simp only [Bool.or_false, decide_eq_false_iff_not]
    norm_num

/-- Witness for C1: concrete boundary snapshots for each filter all yield no
record, and concrete just-inside values satisfy each predicate. -/
theorem strict_boundary_filters_witness :
    process_ticker "B1" ⟨.ok ⟨[("trailingPE", .num 15)]⟩, .ok 1, none, none, none, none, none⟩ = none ∧
    process_ticker "B2" ⟨.ok ⟨[("trailingPE", .num 0)]⟩, .ok 1, none, none, none, none, none⟩ = none ∧
    process_ticker "B3" ⟨.ok ⟨[]⟩, .ok 1, some 15, none, none, none, some 100⟩ = none ∧
    process_ticker "B4" ⟨.ok ⟨[]⟩, .ok 1, none, some 20, some 100, none, none⟩ = none ∧
    process_ticker "B5" ⟨.ok ⟨[]⟩, .ok 1, none, none, none, some 7, some 7⟩ = none ∧
    is_pe_ok (1499 / 100) = true ∧ is_roe_ok (151 / 1000) = true ∧
    is_gpm_ok (201 / 1000) = true ∧ is_de_ok (99 / 100) .obj = true := by
  refine ⟨strict_boundary_filters.1 "B1" _ _ rfl (by decide),
    strict_boundary_filters.2.1 "B2" _ _ rfl (by decide),
    strict_boundary_filters.2.2.1 "B3" _ (by norm_num [calculate_roe]),
    strict_boundary_filters.2.2.2.1 "B4" _ (by norm_num [calculate_gpm]),
    strict_boundary_filters.2.2.2.2.1 "B5" _ _ rfl (by norm_num [calculate_de_ratio]) (by decide),
    strict_boundary_filters.2.2.2.2.2.1 _ (by norm_num) (by norm_num),
    strict_boundary_filters.2.2.2.2.2.2.1 _ (by norm_num),
    strict_boundary_filters.2.2.2.2.2.2.2.1 _ (by norm_num),
    strict_boundary_filters.2.2.2.2.2.2.2.2.1 _ _ (by norm_num)⟩

/-! ## C2: the debt-exempted sectors -/

/-- An exempted sector is never an excluded sector. -/
theorem exempt_not_excluded (v : PyVal)
    (h : inSectors v EXEMPTED_DEBT_SECTORS = true) :
    inSectors v EXCLUDED_SECTORS = false := by
  cases v <;> simp_all [inSectors, EXEMPTED_DEBT_SECTORS]
  rcases h with h | h <;> subst h <;> decide

/-- Claim C2: for a security whose sector is debt-exempted, no debt-to-equity
value (in particular none ≥ 1.0) can disqualify it — the safety predicate
holds unconditionally — while the valuation, quality and moat predicates
still decide the outcome unchanged. -/
theorem exempted_sector_debt :
    (∀ (de_val : ℚ) (sector : PyVal), inSectors sector EXEMPTED_DEBT_SECTORS = true →
      is_de_ok de_val sector = true)
    ∧ (∀ sector : PyVal, inSectors sector EXEMPTED_DEBT_SECTORS = true →
      inSectors sector EXCLUDED_SECTORS = false)
    ∧ (∀ (ticker : String) (stock : Stock) (info : PyDict) (price de_val : ℚ),
      stock.info = .ok info → stock.fastPrice = .ok price →
      calculate_de_ratio stock = .ok de_val →
      inSectors (sectorVal info) EXEMPTED_DEBT_SECTORS = true →
      (process_ticker ticker stock).isSome =
        (is_pe_ok (get_safe_float info "trailingPE" 9999) &&
          is_roe_ok (calculate_roe stock) && is_gpm_ok (calculate_gpm stock))) := by
  refine ⟨?_, exempt_not_excluded, ?_⟩
  · intro de_val sector h
    simp [is_de_ok, h]
  · intro ticker stock info price de_val hinfo hfp hde hexmp
    rw [process_ticker_isSome_eq ticker stock info price de_val hinfo hfp
      (exempt_not_excluded _ hexmp) hde]
    simp [is_de_ok, hexmp]

/-- Witness for C2: a Financial Services security with a debt-to-equity of 3.0
still passes the safety predicate, and with favourable other ratios it
produces a match. -/
theorem exempted_sector_debt_witness :
    is_de_ok 3 (.str "Financial Services") = true ∧
    (process_ticker "FS" ⟨.ok ⟨[("sector", .str "Financial Services"), ("trailingPE", .num 10)]⟩,
      .ok 25, some 20, some 30, some 100, some 300, some 100⟩).isSome = true := by
  refine ⟨exempted_sector_debt.1 3 (.str "Financial Services") (by decide), ?_⟩
  rw [exempted_sector_debt.2.2 "FS" _ _ 25 3 rfl rfl (by norm_num [calculate_de_ratio])
    (by decide)]
  norm_num [get_safe_float, lookupFloat, PyDict.get, pyFloat, List.find?,
    calculate_roe, calculate_gpm, is_pe_ok, is_roe_ok, is_gpm_ok]
  decide

/-! ## C3: all faults become an absent result -/

/-- Claim C3: the evaluator is total over `Option MatchRecord`, and every
fault path — a failing summary fetch, a failing price fetch, a missing or
non-numeric P/E field, a missing income-statement line — yields `none`
rather than propagating an error. -/
theorem evaluator_faults_to_none :
    (∀ (ticker : String) (stock : Stock), process_ticker ticker stock = none ∨
      ∃ m : MatchRecord, process_ticker ticker stock = some m)
    ∧ (∀ (ticker : String) (stock : Stock), stock.info = .error () →
      process_ticker ticker stock = none)
    ∧ (∀ (ticker : String) (stock : Stock), stock.fastPrice = .error () →
      process_ticker ticker stock = none)
    ∧ (∀ (ticker : String) (stock : Stock) (info : PyDict), stock.info = .ok info →
      lookupFloat info "trailingPE" = none → process_ticker ticker stock = none)
    ∧ (∀ (ticker : String) (stock : Stock), stock.netIncome = none →
      process_ticker ticker stock = none) := by
  have hroe_neg : is_roe_ok (-1) = false := by
    rw [is_roe_ok]
    simp only [decide_eq_false_iff_not]
    norm_num
  refine ⟨?_, ?_, ?_, ?_, ?_⟩
  · intro ticker stock
    rcases h : process_ticker ticker stock with _ | m
    · exact Or.inl rfl
    · exact Or.inr ⟨m, rfl⟩
  · intro ticker stock h
    unfold process_ticker
    rw [h]
  · intro ticker stock h
    rcases hi : stock.info with e | info
    · unfold process_ticker
      rw [hi]
    · unfold process_ticker
      rw [hi, h]
  · intro ticker stock info hinfo hlk
    refine process_ticker_none_of_pred_false ticker stock info hinfo (fun de_val _ => ?_)
    have h9999 : get_safe_float info "trailingPE" 9999 = 9999 := by
      unfold get_safe_float
      rw [hlk]
    have : is_pe_ok 9999 = false := by decide
    rw [h9999]
    simp [this]
  · intro ticker stock hni
    rcases hi : stock.info with e | info
    · unfold process_ticker
      rw [hi]
    · refine process_ticker_none_of_pred_false ticker stock info hi (fun de_val _ => ?_)
      have : calculate_roe stock = -1 := by simp [calculate_roe, hni]
      rw [this]
      simp [hroe_neg]

/-- Witness for C3: a failing summary fetch, a failing price fetch, a
non-numeric P/E value and a missing income line all evaluate to `none` on
concrete stocks. -/
theorem evaluator_faults_to_none_witness :
    process_ticker "F1" ⟨.error (), .ok 1, some 1, some 1, some 1, some 0, some 1⟩ = none ∧
    process_ticker "F2" ⟨.ok ⟨[]⟩, .error (), some 1, some 1, some 1, some 0, some 1⟩ = none ∧
    process_ticker "F3" ⟨.ok ⟨[("trailingPE", .str "twelve")]⟩, .ok 1,
      some 1, some 1, some 1, some 0, some 1⟩ = none ∧
    process_ticker "F4" ⟨.ok ⟨[("trailingPE", .num 10)]⟩, .ok 1,
      none, some 1, some 1, some 0, some 1⟩ = none := by
  exact ⟨evaluator_faults_to_none.2.1 "F1" _ rfl,
    evaluator_faults_to_none.2.2.1 "F2" _ rfl,
    evaluator_faults_to_none.2.2.2.1 "F3" _ _ rfl (by decide),
    evaluator_faults_to_none.2.2.2.2 "F4" _ rfl⟩

/-! ## C4: the debt-to-equity fallback chain -/

/-- Counterexample to claim C4 as stated: with the detailed balance-sheet
source unavailable and the summary field `totalDebt` missing (while the
summary equity is positive), the fallback reads the debt as its sentinel
`0.0` and returns a ratio of `0`, which passes the `< 1.0` safety filter —
so missing source data can produce a passing debt-to-equity value. -/
theorem de_fallback_missing_debt_passes :
    calculate_de_ratio ⟨.ok ⟨[("totalStockholderEquity", .num 100)]⟩, .error (),
      none, none, none, none, none⟩ = .ok 0 ∧
    (⟨[("totalStockholderEquity", .num 100)]⟩ : PyDict).get "totalDebt" = none ∧
    is_de_ok 0 .obj = true ∧ ((0 : ℚ) < 1) := by
  refine ⟨?_, by decide, by decide, by norm_num⟩
  have h1 : get_safe_float ⟨[("totalStockholderEquity", .num 100)]⟩ "totalDebt" 0 = 0 := by
    decide
  have h2 : get_safe_float ⟨[("totalStockholderEquity", .num 100)]⟩
      "totalStockholderEquity" (-1) = 100 := by decide
  rw [calculate_de_ratio_fallback _ _ (Or.inl rfl) rfl, h1, h2]
  norm_num

/-- Claim C4 (amended): when the detailed balance-sheet source is unavailable,
the calculator falls back to the summary fields `totalDebt` (sentinel `0.0`)
and `totalStockholderEquity` (sentinel `-1.0`) read through the Safe Numeric
Extractor, still requiring equity > 0; whenever the equity of the path taken
is not positive, it returns the sentinel `9999.0`, which fails the `< 1.0`
filter for every non-exempt sector. (A missing `totalDebt` alone is read as
zero debt and can still pass, per the counterexample.) -/
theorem de_fallback_spec :
    (∀ (stock : Stock) (info : PyDict),
      (stock.bsTotalDebt = none ∨ stock.bsTotalEquity = none) → stock.info = .ok info →
      calculate_de_ratio stock = .ok
        (if get_safe_float info "totalStockholderEquity" (-1) > 0 then
          get_safe_float info "totalDebt" 0 / get_safe_float info "totalStockholderEquity" (-1)
        else 9999))
    ∧ (∀ (stock : Stock) (info : PyDict),
      (stock.bsTotalDebt = none ∨ stock.bsTotalEquity = none) → stock.info = .ok info →
      get_safe_float info "totalStockholderEquity" (-1) ≤ 0 →
      calculate_de_ratio stock = .ok 9999)
    ∧ (∀ sector : PyVal, inSectors sector EXEMPTED_DEBT_SECTORS = false →
      is_de_ok 9999 sector = false)
    ∧ (∀ (stock : Stock) (td te : ℚ), stock.bsTotalDebt = some td →
      stock.bsTotalEquity = some te → te ≤ 0 → calculate_de_ratio stock = .ok 9999) := by
  refine ⟨fun stock info hmiss hinfo => calculate_de_ratio_fallback stock info hmiss hinfo,
    ?_, ?_, ?_⟩
  · intro stock info hmiss hinfo hle
    rw [calculate_de_ratio_fallback stock info hmiss hinfo, if_neg (not_lt.mpr hle)]
  · intro sector h
    rw [is_de_ok, h]
    simp only [Bool.or_false, decide_eq_false_iff_not]
    norm_num
  · intro stock td te h1 h2 h3
    rw [calculate_de_ratio_detailed stock td te h1 h2, if_neg (not_lt.mpr h3)]

/-- Witness for the amended C4: a concrete fallback division, a concrete
fallback sentinel, the sentinel failing the filter, and a concrete detailed
sentinel. -/
theorem de_fallback_spec_witness :
    calculate_de_ratio ⟨.ok ⟨[("totalDebt", .num 40), ("totalStockholderEquity", .num 20)]⟩,
      .error (), none, none, none, some 1, none⟩ = .ok 2 ∧
    calculate_de_ratio ⟨.ok ⟨[("totalStockholderEquity", .num 0)]⟩, .error (),
      none, none, none, none, none⟩ = .ok 9999 ∧
    is_de_ok 9999 (.str "Consumer Defensive") = false ∧
    calculate_de_ratio ⟨.error (), .error (), none, none, none, some 3, some (-1)⟩ = .ok 9999 := by
  refine ⟨?_, ?_, de_fallback_spec.2.2.1 (.str "Consumer Defensive") (by decide),
    de_fallback_spec.2.2.2 _ 3 (-1) rfl rfl (by norm_num)⟩
  · have h1 : get_safe_float ⟨[("totalDebt", .num 40), ("totalStockholderEquity", .num 20)]⟩
        "totalDebt" 0 = 40 := by decide
    have h2 : get_safe_float ⟨[("totalDebt", .num 40), ("totalStockholderEquity", .num 20)]⟩
        "totalStockholderEquity" (-1) = 20 := by decide
    rw [de_fallback_spec.1 _ _ (Or.inr rfl) rfl, h1, h2]
    norm_num
  · exact de_fallback_spec.2.1 _ _ (Or.inl rfl) rfl (by decide)

/-! ## C7: the classification tag -/

/-- Counterexample to claim C7 as stated: a Utilities security whose
debt-to-equity ratio of `1/2` passes the strict `< 1.0` threshold on its own
— the pass does not rely on the exemption — still gets the annotated
exemption tag, not the plain pass tag. -/
theorem pass_tag_annotated_without_reliance :
    process_ticker "UTL" ⟨.ok ⟨[("sector", .str "Utilities"), ("trailingPE", .num 10)]⟩,
      .ok 10, some 20, some 30, some 100, some 50, some 100⟩ =
      some { symbol := "UTL", name := .str "UTL", sector := .str "Utilities",
             pe := 10, roe := 20, gpm := 30, de_ratio := 1 / 2, price := 10,
             currency := .str "USD",
             tag := "Valeur d'Or (Dette adaptée : Utilities)" } ∧
    calculate_de_ratio ⟨.ok ⟨[("sector", .str "Utilities"), ("trailingPE", .num 10)]⟩,
      .ok 10, some 20, some 30, some 100, some 50, some 100⟩ = .ok (1 / 2) ∧
    ((1 : ℚ) / 2 < 1) ∧
    "Valeur d'Or (Dette adaptée : Utilities)" ≠ goldTag := by
  refine ⟨?_, by norm_num [calculate_de_ratio], by norm_num, by decide⟩
  simp [process_ticker, sectorVal, PyDict.get, get_safe_float, lookupFloat, pyFloat,
    calculate_roe, calculate_gpm, calculate_de_ratio, inSectors, EXCLUDED_SECTORS,
    EXEMPTED_DEBT_SECTORS, is_pe_ok, is_roe_ok, is_gpm_ok, is_de_ok, round2,
    roundHalfEven, exemptTag, pyStrOf, goldTag, List.find?]
  norm_num

/-- Claim C7 (amended): a produced Match Record carries the annotated
exemption tag exactly when its sector is in the debt-exempted set — whether
or not the pass relied on the exemption — and the plain pass tag
otherwise. -/
theorem pass_tag_by_sector :
    ∀ (ticker : String) (stock : Stock) (info : PyDict) (m : MatchRecord),
      stock.info = .ok info → process_ticker ticker stock = some m →
      (inSectors (sectorVal info) EXEMPTED_DEBT_SECTORS = true →
        m.tag = exemptTag (sectorVal info))
      ∧ (inSectors (sectorVal info) EXEMPTED_DEBT_SECTORS = false → m.tag = goldTag) := by
  intro ticker stock info m hinfo hm
  unfold process_ticker at hm
  rw [hinfo] at hm
  rcases hfp : stock.fastPrice with e | price <;> rw [hfp] at hm
  · simp at hm
  by_cases hex : inSectors (sectorVal info) EXCLUDED_SECTORS = true
  · simp [hex] at hm
  rcases hde : calculate_de_ratio stock with e | de_val <;> rw [hde] at hm
  · simp [hex] at hm
  by_cases hpred : (is_pe_ok (get_safe_float info "trailingPE" 9999) &&
      is_roe_ok (calculate_roe stock) && is_gpm_ok (calculate_gpm stock) &&
      is_de_ok de_val (sectorVal info)) = true
  · simp only [hex, Bool.false_eq_true, if_false, hpred, if_true] at hm
    rw [Option.some.inj hm.symm]
    constructor
    · intro hexmp
      simp [hexmp]
    · intro hexmp
      simp [hexmp]
  · simp [hex, hpred] at hm

/-- Witness for the amended C7: the match record of a concrete exempted-sector
security carries the annotated tag. -/
theorem pass_tag_by_sector_witness :
    (MatchRecord.mk "W1" (.str "W1") (.str "Utilities") 10 20 30 (1 / 2) 1 (.str "USD")
      "Valeur d'Or (Dette adaptée : Utilities)").tag = exemptTag (.str "Utilities") := by
  have hm : process_ticker "W1" ⟨.ok ⟨[("sector", .str "Utilities"), ("trailingPE", .num 10)]⟩,
      .ok 1, some 20, some 30, some 100, some 50, some 100⟩ =
      some (MatchRecord.mk "W1" (.str "W1") (.str "Utilities") 10 20 30 (1 / 2) 1 (.str "USD")
        "Valeur d'Or (Dette adaptée : Utilities)") := by
    simp [process_ticker, sectorVal, PyDict.get, get_safe_float, lookupFloat, pyFloat,
      calculate_roe, calculate_gpm, calculate_de_ratio, inSectors, EXCLUDED_SECTORS,
      EXEMPTED_DEBT_SECTORS, is_pe_ok, is_roe_ok, is_gpm_ok, is_de_ok, round2,
      roundHalfEven, exemptTag, pyStrOf, goldTag, List.find?]
    norm_num
  have h := (pass_tag_by_sector "W1" _ _ _ rfl hm).1 (by decide)
  simpa [sectorVal, PyDict.get, List.find?] using h

/-! ## C10: the default sector for records without one -/

/-- Claim C10: a metric record with no `sector` field gets the substitute
sector string `N/A`, which is in neither the excluded nor the debt-exempted
set; such a security is not skipped by the sector check, faces the strict
`< 1.0` debt threshold, and can still produce a plain-pass match record
whose sector is `N/A`. -/
theorem missing_sector_na_spec :
    (∀ info : PyDict, info.get "sector" = none → sectorVal info = .str "N/A")
    ∧ inSectors (.str "N/A") EXCLUDED_SECTORS = false
    ∧ inSectors (.str "N/A") EXEMPTED_DEBT_SECTORS = false
    ∧ (∀ de_val : ℚ, is_de_ok de_val (.str "N/A") = decide (de_val < 1))
    ∧ (∀ (ticker : String) (stock : Stock) (info : PyDict) (price de_val : ℚ),
      stock.info = .ok info → info.get "sector" = none → stock.fastPrice = .ok price →
      calculate_de_ratio stock = .ok de_val →
      (process_ticker ticker stock).isSome =
        (is_pe_ok (get_safe_float info "trailingPE" 9999) &&
          is_roe_ok (calculate_roe stock) && is_gpm_ok (calculate_gpm stock) &&
          decide (de_val < 1)))
    ∧ (∀ (ticker : String) (stock : Stock) (info : PyDict) (m : MatchRecord),
      stock.info = .ok info → info.get "sector" = none →
      process_ticker ticker stock = some m →
      m.sector = .str "N/A" ∧ m.tag = goldTag) := by
  have hna : ∀ info : PyDict, info.get "sector" = none → sectorVal info = .str "N/A" := by
    intro info h
    rw [sectorVal, h]
    rfl
  have hnotex : inSectors (.str "N/A") EXCLUDED_SECTORS = false := by decide
  have hnotexmp : inSectors (.str "N/A") EXEMPTED_DEBT_SECTORS = false := by decide
  have hdeok : ∀ de_val : ℚ, is_de_ok de_val (.str "N/A") = decide (de_val < 1) := by
    intro de_val
    rw [is_de_ok, hnotexmp]
    simp
  refine ⟨hna, hnotex, hnotexmp, hdeok, ?_, ?_⟩
  · intro ticker stock info price de_val hinfo hsec hfp hde
    rw [process_ticker_isSome_eq ticker stock info price de_val hinfo hfp
      (by rw [hna info hsec]; exact hnotex) hde]
    rw [hna info hsec, hdeok de_val]
  · intro ticker stock info m hinfo hsec hm
    unfold process_ticker at hm
    rw [hinfo] at hm
    rcases hfp : stock.fastPrice with e | price <;> rw [hfp] at hm
    · simp at hm
    dsimp only at hm
    rw [hna info hsec] at hm
    rcases hde : calculate_de_ratio stock with e | de_val <;> rw [hde] at hm
    · simp [hnotex] at hm
    by_cases hpred : (is_pe_ok (get_safe_float info "trailingPE" 9999) &&
        is_roe_ok (calculate_roe stock) && is_gpm_ok (calculate_gpm stock) &&
        is_de_ok de_val (.str "N/A")) = true
    · simp only [hnotex, Bool.false_eq_true, if_false, hpred, if_true] at hm
      rw [Option.some.inj hm.symm]
      exact ⟨rfl, by simp [hnotexmp]⟩
    · simp [hnotex, hpred] at hm

/-- Witness for C10: a concrete snapshot with no sector field evaluates to a
match, and the substituted sector is `N/A`. -/
theorem missing_sector_na_spec_witness :
    sectorVal ⟨[("trailingPE", .num 10)]⟩ = .str "N/A" ∧
    (process_ticker "NS" ⟨.ok ⟨[("trailingPE", .num 10)]⟩, .ok 5,
      some 20, some 30, some 100, some 10, some 100⟩).isSome = true := by
  refine ⟨missing_sector_na_spec.1 _ rfl, ?_⟩
  rw [missing_sector_na_spec.2.2.2.2.1 "NS"
    ⟨.ok ⟨[("trailingPE", .num 10)]⟩, .ok 5, some 20, some 30, some 100, some 10, some 100⟩
    ⟨[("trailingPE", .num 10)]⟩ 5 (1 / 10) rfl (by decide) rfl
    (by norm_num [calculate_de_ratio])]
  norm_num [get_safe_float, lookupFloat, PyDict.get, pyFloat, List.find?,
    calculate_roe, calculate_gpm, is_pe_ok, is_roe_ok, is_gpm_ok]

/-! ## C8: the orchestrator's collect, sort and report step -/

/-- The sort comparison is transitive. -/
theorem peLe_trans : ∀ a b c : MatchRecord,
    peLe a b = true → peLe b c = true → peLe a c = true := by
  intro a b c h1 h2
  simp only [peLe, decide_eq_true_eq] at h1 h2 ⊢
  exact le_trans h1 h2

/-- The sort comparison is total. -/
theorem peLe_total : ∀ a b : MatchRecord, (peLe a b || peLe b a) = true := by
  intro a b
  simp only [peLe, Bool.or_eq_true, decide_eq_true_eq]
  exact le_total a.pe b.pe

/-- The report's match list is the stable merge sort of the non-absent
results. -/
theorem run_global_analysis_data (results : List (Option MatchRecord)) (now : String) :
    (run_global_analysis results now).data = (results.filterMap id).mergeSort peLe := rfl

/-- Claim C8: the orchestrator discards the absent results, the report's list
is a permutation of the survivors that is non-decreasing in P/E, the sort is
stable (records with equal P/E keep their first-seen relative order), and the
count field equals the list's length. -/
theorem report_sort_spec :
    (∀ (results : List (Option MatchRecord)) (now : String),
      ((run_global_analysis results now).data).Pairwise (fun a b => a.pe ≤ b.pe))
    ∧ (∀ (results : List (Option MatchRecord)) (now : String),
      (run_global_analysis results now).count = (run_global_analysis results now).data.length)
    ∧ (∀ (results : List (Option MatchRecord)) (now : String),
      ((run_global_analysis results now).data).Perm (results.filterMap id))
    ∧ (∀ (results : List (Option MatchRecord)) (now : String) (q : ℚ),
      ((run_global_analysis results now).data).filter (fun r => decide (r.pe = q)) =
        (results.filterMap id).filter (fun r => decide (r.pe = q))) := by
  refine ⟨?_, ?_, ?_, ?_⟩
  · intro results now
    rw [run_global_analysis_data]
    have h := List.sorted_mergeSort peLe_trans peLe_total (results.filterMap id)
    exact h.imp (fun hab => by simpa [peLe, decide_eq_true_eq] using hab)
  · intro results now
    rfl
  · intro results now
    rw [run_global_analysis_data]
    exact List.mergeSort_perm (results.filterMap id) peLe
  · intro results now q
    rw [run_global_analysis_data]
    have hpair : ((results.filterMap id).filter (fun r => decide (r.pe = q))).Pairwise
        (fun a b => peLe a b = true) := by
      apply List.pairwise_of_forall_mem_list
      intro a ha b hb
      have ha2 := (List.mem_filter.mp ha).2
      have hb2 := (List.mem_filter.mp hb).2
      simp only [decide_eq_true_eq] at ha2 hb2
      simp [peLe, ha2, hb2]
    have hsub : List.Sublist ((results.filterMap id).filter (fun r => decide (r.pe = q)))
        ((results.filterMap id).mergeSort peLe) :=
      List.sublist_mergeSort peLe_trans peLe_total hpair (List.filter_sublist _)
    have hidem : (((results.filterMap id).filter (fun r => decide (r.pe = q))).filter
        (fun r => decide (r.pe = q))) =
        ((results.filterMap id).filter (fun r => decide (r.pe = q))) :=
      List.filter_eq_self.mpr (fun a ha => (List.mem_filter.mp ha).2)
    have hsub2 : List.Sublist ((results.filterMap id).filter (fun r => decide (r.pe = q)))
        (((results.filterMap id).mergeSort peLe).filter (fun r => decide (r.pe = q))) :=
      hidem ▸ hsub.filter (fun r => decide (r.pe = q))
    have hlen : ((((results.filterMap id).mergeSort peLe).filter
        (fun r => decide (r.pe = q)))).length =
        (((results.filterMap id).filter (fun r => decide (r.pe = q)))).length :=
      ((List.mergeSort_perm (results.filterMap id) peLe).filter _).length_eq
    exact (hsub2.eq_of_length hlen.symm).symm

/-! ## C9: set semantics of the aggregated universe -/

/-- Claim C9: the aggregated universe is duplicate-free, contains a ticker
exactly when it is a non-empty token of some source's normalized contribution
(so two sources contributing the same normalized identifier collapse to one
entry), and each member occurs exactly once. -/
theorem universe_set_semantics :
    (∀ sp500 nasdaq cac40 dax ftse : Option (List String),
      (get_all_global_tickers sp500 nasdaq cac40 dax ftse).Nodup)
    ∧ (∀ (sp500 nasdaq cac40 dax ftse : Option (List String)) (t : String),
      t ∈ get_all_global_tickers sp500 nasdaq cac40 dax ftse ↔
        t ≠ "" ∧ t ∈ all_tickers_raw sp500 nasdaq cac40 dax ftse)
    ∧ (∀ (sp500 nasdaq cac40 dax ftse : Option (List String)) (t : String),
      t ∈ get_all_global_tickers sp500 nasdaq cac40 dax ftse →
      List.count t (get_all_global_tickers sp500 nasdaq cac40 dax ftse) = 1) := by
  refine ⟨?_, ?_, ?_⟩
  · intro a b c d e
    exact List.nodup_dedup _
  · intro a b c d e t
    rw [get_all_global_tickers, List.mem_dedup, List.mem_filter]
    simp [and_comm]
  · intro a b c d e t ht
    exact List.count_eq_one_of_mem (List.nodup_dedup _) ht

/-- Witness for C9: on the concrete run where every scrape fails, the
universe is the manual list; a concrete member occurs exactly once and the
empty token is absent. -/
theorem universe_set_semantics_witness :
    List.count "7203.T" (get_all_global_tickers none none none none none) = 1 ∧
    "7203.T" ∈ get_all_global_tickers none none none none none ∧
    "" ∉ get_all_global_tickers none none none none none := by
  have hmem : "7203.T" ∈ get_all_global_tickers none none none none none := by decide
  refine ⟨universe_set_semantics.2.2 none none none none none _ hmem, hmem, fun h => ?_⟩
  exact ((universe_set_semantics.2.1 none none none none none "").mp h).1 rfl
